import Mathlib

/-!
Shallow embedding of the core logic of `src/app.py` ("DataScrub Pro"):
the quality scorer `calculate_quality_score`, the email validator
`is_valid_email`, the Deep Clean run-cleaning-job block, and the
Export Tools platform block.  Tables are modelled row-major: a header of
column names and a list of rows, each row a list of cells.  A cell is
text, an integer number, or missing (pandas NaN).  Python/pandas floats
are embedded as exact rationals; Python string operations are embedded
over ASCII characters.
-/

namespace DataScrub

/-- A pandas cell as the app uses it: a string, a number, or NaN. -/
inductive Cell where
  | text (s : String)
  | num (n : Int)
  | missing
deriving DecidableEq

/-- A pandas DataFrame: ordered column names plus row-major cell data. -/
structure Table where
  header : List String
  rows : List (List Cell)
deriving DecidableEq

def Cell.isMissingB : Cell → Bool
  | .missing => true
  | _ => false

def Cell.isTextB : Cell → Bool
  | .text _ => true
  | _ => false

/-- Python `str(x)` on a cell value: strings pass through, numbers render,
and a float NaN renders as "nan" (what `str` yields on a missing cell). -/
def pyStr : Cell → String
  | .text s => s
  | .num n => toString n
  | .missing => "nan"

/-- Python `str.isspace` characters (ASCII range), used by `str.strip()`. -/
def pyIsSpace (c : Char) : Bool :=
  c = ' ' || c = '\t' || c = '\n' || c = '\r' || c = '\x0b' || c = '\x0c'

/-- Python `str.strip()`: drop leading and trailing whitespace. -/
def pyStrip (s : String) : String :=
  ⟨((s.data.dropWhile pyIsSpace).reverse.dropWhile pyIsSpace).reverse⟩

/-- Python `str.title()` word automaton: a letter starting a word (previous
character not a letter) is uppercased, later letters of the word are
lowercased, non-letters pass through and end the current word. -/
def titleAux : Bool → List Char → List Char
  | _, [] => []
  | prevCased, c :: cs =>
    if c.isAlpha then
      (if prevCased then c.toLower else c.toUpper) :: titleAux true cs
    else
      c :: titleAux false cs

/-- Python `str.title()` as pandas `Series.str.title` applies it. -/
def pyTitle (s : String) : String := ⟨titleAux false s.data⟩

/-- Python `str.lower()` (ASCII). -/
def pyLower (s : String) : String := ⟨s.data.map Char.toLower⟩

/-- `c.lower().replace(' ', '_')` from the Export Tools block (line 273). -/
def sfName (s : String) : String :=
  ⟨(s.data.map Char.toLower).map (fun c => if c = ' ' then '_' else c)⟩

def startsWithL : List Char → List Char → Bool
  | [], _ => true
  | _ :: _, [] => false
  | p :: ps, c :: cs => p = c && startsWithL ps cs

/-- Substring containment over character lists (Python `in` on strings). -/
def containsL (pat : List Char) : List Char → Bool
  | [] => startsWithL pat []
  | c :: cs => startsWithL pat (c :: cs) || containsL pat cs

/-- The name heuristic of the title-case step: `'name' in col.lower()`. -/
def nameLike (col : String) : Bool :=
  containsL "name".data (col.data.map Char.toLower)

/-! ### The email regex `^[a-zA-Z0-9._%+-]+@[a-zA-Z0-9.-]+\.[a-zA-Z]{2,}$` -/

def isLocalChar (c : Char) : Bool :=
  c.isAlpha || c.isDigit || c = '.' || c = '_' || c = '%' || c = '+' || c = '-'

def isDomainChar (c : Char) : Bool :=
  c.isAlpha || c.isDigit || c = '.' || c = '-'

/-- All splittings `s = pre ++ suf` of a character list. -/
def splits : List Char → List (List Char × List Char)
  | [] => [([], [])]
  | c :: cs => ([], c :: cs) :: (splits cs).map (fun p => (c :: p.1, p.2))

def tldOk (t : List Char) : Bool :=
  decide (2 ≤ t.length) && t.all Char.isAlpha

def domainTail : List Char → Bool
  | '.' :: t => tldOk t
  | _ => false

def afterAt (rest : List Char) : Bool :=
  (splits rest).any (fun p => !p.1.isEmpty && p.1.all isDomainChar && domainTail p.2)

def localTail : List Char → Bool
  | '@' :: rest => afterAt rest
  | _ => false

/-- Membership in the regex language with a hard end-of-string anchor:
`local+ '@' domain+ '.' letter{2,}` consuming the whole input. -/
def emailCore (s : List Char) : Bool :=
  (splits s).any (fun p => !p.1.isEmpty && p.1.all isLocalChar && localTail p.2)

/-- Python `re.match` of the email pattern: `$` matches at the end of the
string or just before a single trailing newline. -/
def pyMatchEmail (s : String) : Bool :=
  emailCore s.data || (s.data.getLast? == some '\n' && emailCore s.data.dropLast)

/-- `is_valid_email` (lines 102-105): stringify the cell, then match. -/
def is_valid_email (email : Cell) : Bool := pyMatchEmail (pyStr email)

/-! ### Quality scorer (lines 89-100) -/

def ncols (t : Table) : Nat := t.header.length

def nrows (t : Table) : Nat := t.rows.length

/-- `df.size`: rows × columns. -/
def total_cells (t : Table) : Nat := nrows t * ncols t

/-- `df.isnull().sum().sum()`: missing cells across the whole frame. -/
def total_missing (t : Table) : Nat :=
  (t.rows.map (fun r => (r.filter Cell.isMissingB).length)).sum

def dupCountAux : List (List Cell) → List (List Cell) → Nat
  | _, [] => 0
  | seen, r :: rs => (if r ∈ seen then 1 else 0) + dupCountAux (r :: seen) rs

/-- `df.duplicated().sum()`: rows equal to some earlier row (pandas treats
NaN cells as equal when comparing rows). -/
def duplicate_rows (t : Table) : Nat := dupCountAux [] t.rows

def missing_penalty (t : Table) : ℚ :=
  if 0 < total_cells t then ((total_missing t : ℚ) / (total_cells t : ℚ)) * 100 else 0

def duplicate_penalty (t : Table) : ℚ :=
  if 0 < nrows t then ((duplicate_rows t : ℚ) / (nrows t : ℚ)) * 100 else 0

def scoreQ (t : Table) : ℚ :=
  100 - missing_penalty t * (0.7 : ℚ) - duplicate_penalty t * (0.3 : ℚ)

/-- Python `int()`: truncation toward zero. -/
def pyTrunc (q : ℚ) : ℤ := if 0 ≤ q then ⌊q⌋ else ⌈q⌉

/-- `calculate_quality_score`: `max(0, int(score))`. -/
def calculate_quality_score (t : Table) : ℤ := max 0 (pyTrunc (scoreQ t))

/-! ### Deep Clean run-cleaning-job block (lines 207-235) -/

/-- The five checkboxes of the Deep Clean configuration panel plus the
email-column selectbox, whose value is a column name or the literal
string "None" (lines 194-205). -/
structure CleaningConfig where
  chk_duplicates : Bool
  chk_empty_rows : Bool
  chk_trim : Bool
  chk_title_case : Bool
  chk_validate_email : Bool
  email_col : String
deriving DecidableEq

/-- Keep-first deduplication with an accumulator of already-seen items. -/
def dedupAux {α : Type} [DecidableEq α] : List α → List α → List α
  | _, [] => []
  | seen, r :: rs =>
    if r ∈ seen then dedupAux seen rs else r :: dedupAux (r :: seen) rs

/-- `temp_df.drop_duplicates(inplace=True)` (line 212): keep the first
occurrence of each distinct row, preserving order. -/
def drop_duplicates (t : Table) : Table :=
  { t with rows := dedupAux [] t.rows }

/-- `temp_df.dropna(how='all', inplace=True)` (line 215): drop the rows
whose cells are all missing. -/
def dropna_all (t : Table) : Table :=
  { t with rows := t.rows.filter (fun r => !(r.all Cell.isMissingB)) }

/-- `select_dtypes(include=['object'])` membership for column `i`: a CSV
column is object-typed exactly when it holds at least one string. -/
def colIsObject (t : Table) (i : Nat) : Bool :=
  (t.rows.map (fun r => r.getD i Cell.missing)).any Cell.isTextB

/-- A pandas `.str` accessor method: strings are transformed, anything
else (missing, or a stray number in an object column) becomes NaN. -/
def strMap (f : String → String) : Cell → Cell
  | .text s => .text (f s)
  | _ => .missing

/-- The trim step (lines 217-221): `temp_df[col].str.strip()` over every
object-typed column. -/
def trimStep (t : Table) : Table :=
  { t with rows := t.rows.map (fun r => r.mapIdx (fun i c =>
      if colIsObject t i then strMap pyStrip c else c)) }

/-- The title-case step (lines 223-229): `temp_df[col].str.title()` over
every object-typed column whose name contains "name" case-insensitively. -/
def titleStep (t : Table) : Table :=
  { t with rows := t.rows.map (fun r => r.mapIdx (fun i c =>
      if colIsObject t i && nameLike (t.header.getD i "") then strMap pyTitle c else c)) }

/-- `temp_df[temp_df[email_col].apply(is_valid_email)]` (line 233):
keep the rows whose cell in the named column validates.  Looking up a
column that does not exist raises a `KeyError` in pandas, modelled as
`none`. -/
def emailFilterStep (col : String) (t : Table) : Option Table :=
  match t.header.findIdx? (fun h => h == col) with
  | some i =>
      some { t with rows := t.rows.filter (fun r => is_valid_email (r.getD i Cell.missing)) }
  | none => none

/-- The Run Cleaning Job block (lines 207-235): start from a copy of the
uploaded table and apply the five steps in their fixed order, each one
guarded by its checkbox; the email filter additionally requires the
selectbox not to be on "None". -/
def runCleaningJob (cfg : CleaningConfig) (df : Table) : Option Table :=
  let t1 := if cfg.chk_duplicates then drop_duplicates df else df
  let t2 := if cfg.chk_empty_rows then dropna_all t1 else t1
  let t3 := if cfg.chk_trim then trimStep t2 else t2
  let t4 := if cfg.chk_title_case then titleStep t3 else t3
  if (cfg.email_col != "None") && cfg.chk_validate_email then
    emailFilterStep cfg.email_col t4
  else
    some t4

/-! ### Export Tools platform block (lines 261-285) -/

/-- The column renaming of the Export Tools block: for the Salesforce
Compatible target every column name is lower-cased with spaces replaced
by underscores (line 273); any other target leaves the table as is. -/
def exportFormat (platform : String) (t : Table) : Table :=
  if platform = "Salesforce Compatible" then
    { t with header := t.header.map sfName }
  else
    t

/-- The host-visible session state: `st.session_state.cleaned_df`. -/
structure AppState where
  cleaned_df : Table
deriving DecidableEq

/-- The Export Tools block as a state transformer.  The source binds
`clean_data = st.session_state.cleaned_df` without copying, and for the
Salesforce target assigns `clean_data.columns = [...]`, which writes
through the alias into the session state; the block returns the table it
serializes for download. -/
def exportToolsBlock (platform : String) (s : AppState) : AppState × Table :=
  let t := exportFormat platform s.cleaned_df
  ({ cleaned_df := t }, t)

/-! ### Claim-side definitions (stated from the spec's words, for
comparison with the source embedding) -/

/-- Title-casing as the spec sentence describes it: the first letter of
each whitespace-separated word is capitalized and the rest lower-cased. -/
def specTitleAux : Bool → List Char → List Char
  | _, [] => []
  | atWordStart, c :: cs =>
    if pyIsSpace c then c :: specTitleAux true cs
    else (if atWordStart then c.toUpper else c.toLower) :: specTitleAux false cs

/-- Whitespace-word title-casing per the spec sentence of claim C3. -/
def specTitle (s : String) : String := ⟨specTitleAux true s.data⟩

/-! ### Helper lemmas -/

theorem dedupAux_nodup_disjoint {α : Type} [DecidableEq α] :
    ∀ (l seen : List α),
      (dedupAux seen l).Nodup ∧ ∀ x ∈ dedupAux seen l, x ∉ seen := by
  intro l
  induction l with
  | nil => intro seen; simp [dedupAux]
  | cons r rs ih =>
    intro seen
    by_cases h : r ∈ seen
    · simpa [dedupAux, h] using ih seen
    · obtain ⟨hnd, hdisj⟩ := ih (r :: seen)
      rw [dedupAux, if_neg h]
      refine ⟨List.nodup_cons.mpr ⟨fun hmem => ?_, hnd⟩, ?_⟩
      · exact hdisj r hmem (List.mem_cons_self r seen)
      · intro x hx
        rcases List.mem_cons.mp hx with hx | hx
        · exact hx ▸ h
        · exact fun hxs => hdisj x hx (List.mem_cons_of_mem r hxs)

theorem dedupAux_eq_self {α : Type} [DecidableEq α] :
    ∀ (l seen : List α), l.Nodup → (∀ x ∈ l, x ∉ seen) → dedupAux seen l = l := by
  intro l
  induction l with
  | nil => intro seen _ _; rfl
  | cons r rs ih =>
    intro seen hnd hdisj
    rw [dedupAux, if_neg (hdisj r (List.mem_cons_self r rs))]
    obtain ⟨hr, hrs⟩ := List.nodup_cons.mp hnd
    refine congrArg (r :: ·) (ih (r :: seen) hrs ?_)
    intro x hx
    intro hmem
    rcases List.mem_cons.mp hmem with hmem | hmem
    · exact hr (hmem ▸ hx)
    · exact hdisj x (List.mem_cons_of_mem r hx) hmem

theorem dedupAux_idem {α : Type} [DecidableEq α] (l : List α) :
    dedupAux [] (dedupAux [] l) = dedupAux [] l :=
  dedupAux_eq_self _ _ (dedupAux_nodup_disjoint l []).1
    (fun x _ hx => List.not_mem_nil x hx)

theorem drop_duplicates_idem (t : Table) :
    drop_duplicates (drop_duplicates t) = drop_duplicates t := by
  simp [drop_duplicates, dedupAux_idem]

theorem missing_penalty_nonneg (t : Table) : 0 ≤ missing_penalty t := by
  rw [missing_penalty]
  split
  · positivity
  · exact le_refl 0

theorem duplicate_penalty_nonneg (t : Table) : 0 ≤ duplicate_penalty t := by
  rw [duplicate_penalty]
  split
  · positivity
  · exact le_refl 0

theorem scoreQ_le_100 (t : Table) : scoreQ t ≤ 100 := by
  have h1 : 0 ≤ missing_penalty t * (0.7 : ℚ) :=
    mul_nonneg (missing_penalty_nonneg t) (by norm_num)
  have h2 : 0 ≤ duplicate_penalty t * (0.3 : ℚ) :=
    mul_nonneg (duplicate_penalty_nonneg t) (by norm_num)
  rw [scoreQ]
  linarith

theorem pyTrunc_le_100 {q : ℚ} (h : q ≤ 100) : pyTrunc q ≤ 100 := by
  rw [pyTrunc]
  split
  · calc ⌊q⌋ ≤ ⌊(100 : ℚ)⌋ := Int.floor_le_floor h
      _ = 100 := by norm_num
  · have hq : q ≤ 0 := le_of_not_le (by assumption)
    calc ⌈q⌉ ≤ ⌈(0 : ℚ)⌉ := Int.ceil_le_ceil hq
      _ = 0 := by norm_num
      _ ≤ 100 := by norm_num

/-! ### Example tables and configurations used by the claims -/

/-- The spec's score example: 10 cells, 2 missing, 5 rows, 1 duplicate row. -/
def scoreExampleTable : Table :=
  ⟨["a", "b"],
    [[Cell.text "a", Cell.text "b"], [Cell.text "a", Cell.text "b"],
     [Cell.text "c", Cell.missing], [Cell.text "d", Cell.missing],
     [Cell.text "e", Cell.text "f"]]⟩

/-- Configuration with only the title-case step enabled. -/
def titleOnlyCfg : CleaningConfig := ⟨false, false, false, true, false, "None"⟩

/-- Configuration with only the email-validation step enabled, on `col`. -/
def emailOnlyCfg (col : String) : CleaningConfig := ⟨false, false, false, false, true, col⟩

/-- The spec's email-filter example rows. -/
def emailExampleTable : Table :=
  ⟨["Email"],
    [[Cell.text "a@b.com"], [Cell.text "bad-email"], [Cell.missing], [Cell.text "x@y.co"]]⟩

/-- A session state holding a one-column table named "First Name". -/
def mutDemoState : AppState := ⟨⟨["First Name"], [[Cell.text "Ada"]]⟩⟩

/-- The spec's export example columns. -/
def sfExampleTable : Table :=
  ⟨["First Name", "Email Address"], [[Cell.text "Jo", Cell.text "j@x.io"]]⟩

/-! ### Claims -/

/-- C1: for every table the quality score equals 100 minus 0.7 times the
missing penalty minus 0.3 times the duplicate penalty, truncated toward
zero and clamped below at 0; it never exceeds 100 because the penalties
are non-negative, and the spec's 10-cell example scores exactly 80. -/
theorem C1_score_formula :
    (∀ t : Table,
      calculate_quality_score t =
          max 0 (pyTrunc (100 - (0.7 : ℚ) * missing_penalty t
            - (0.3 : ℚ) * duplicate_penalty t)) ∧
        0 ≤ calculate_quality_score t ∧ calculate_quality_score t ≤ 100) ∧
    calculate_quality_score scoreExampleTable = 80 := by
  constructor
  · intro t
    refine ⟨?_, le_max_left 0 _, max_le (by norm_num) (pyTrunc_le_100 (scoreQ_le_100 t))⟩
    rw [calculate_quality_score]
    congr 2
    rw [scoreQ]
    ring
  · have h1 : total_missing scoreExampleTable = 2 := by decide
    have h2 : duplicate_rows scoreExampleTable = 1 := by decide
    rw [calculate_quality_score, scoreQ, missing_penalty, duplicate_penalty, h1, h2]
    norm_num [total_cells, nrows, ncols, scoreExampleTable, pyTrunc]

/-- C5: a table with zero rows scores 100, with zero missing cells and
zero duplicate rows (the division guards yield penalty 0). -/
theorem C5_zero_rows (t : Table) (h : t.rows = []) :
    calculate_quality_score t = 100 ∧ total_missing t = 0 ∧ duplicate_rows t = 0 := by
  have hn : nrows t = 0 := by rw [nrows, h]; rfl
  have hm : total_missing t = 0 := by rw [total_missing, h]; rfl
  have hd : duplicate_rows t = 0 := by rw [duplicate_rows, h]; rfl
  have hc : total_cells t = 0 := by rw [total_cells, hn, Nat.zero_mul]
  have hmp : missing_penalty t = 0 := by rw [missing_penalty, hc]; norm_num
  have hdp : duplicate_penalty t = 0 := by rw [duplicate_penalty, hn]; norm_num
  have hs : scoreQ t = 100 := by rw [scoreQ, hmp, hdp]; norm_num
  refine ⟨?_, hm, hd⟩
  rw [calculate_quality_score, hs, pyTrunc, if_pos (by norm_num : (0:ℚ) ≤ 100)]
  norm_num

/-- C5 witness: the concrete empty table with one column scores 100. -/
theorem C5_zero_rows_witness :
    (⟨["lead"], []⟩ : Table).rows = [] ∧
      (calculate_quality_score ⟨["lead"], []⟩ = 100 ∧
        total_missing ⟨["lead"], []⟩ = 0 ∧ duplicate_rows ⟨["lead"], []⟩ = 0) :=
  ⟨rfl, C5_zero_rows ⟨["lead"], []⟩ rfl⟩

/-- C6: with all five steps disabled the cleaning job returns the input
table unchanged, whatever the email-column selection is. -/
theorem C6_all_disabled_identity (t : Table) (ec : String) :
    runCleaningJob ⟨false, false, false, false, false, ec⟩ t = some t := by
  simp [runCleaningJob]

/-- C7: with only the remove-duplicates step enabled, cleaning is
idempotent: one pass of keep-first duplicate removal already removes all
duplicates. -/
theorem C7_dedup_idempotent (t : Table) (ec : String) :
    (runCleaningJob ⟨true, false, false, false, false, ec⟩ t).bind
        (runCleaningJob ⟨true, false, false, false, false, ec⟩) =
      runCleaningJob ⟨true, false, false, false, false, ec⟩ t := by
  have hrun : ∀ u : Table,
      runCleaningJob ⟨true, false, false, false, false, ec⟩ u =
        some (drop_duplicates u) := by
    intro u; simp [runCleaningJob]
  rw [hrun t]
  show runCleaningJob ⟨true, false, false, false, false, ec⟩ (drop_duplicates t) = _
  rw [hrun, drop_duplicates_idem]

/-- C8: with the email-validation checkbox on but the column selectbox on
"None", the pipeline behaves exactly as with the step disabled, and it
returns a result rather than an error. -/
theorem C8_email_none_noop (t : Table) (d e tr ti : Bool) :
    runCleaningJob ⟨d, e, tr, ti, true, "None"⟩ t =
        runCleaningJob ⟨d, e, tr, ti, false, "None"⟩ t ∧
      (runCleaningJob ⟨d, e, tr, ti, true, "None"⟩ t).isSome = true :=
  ⟨rfl, rfl⟩

/-- C3 counterexample: the code applies Python `str.title()`, whose words
are maximal letter runs, not whitespace-separated words: on a "Name"
column holding "jean-luc" the pipeline yields "Jean-Luc", while the
claim's whitespace-word title-casing yields "Jean-luc". -/
theorem C3_counterexample :
    runCleaningJob titleOnlyCfg ⟨["Name"], [[Cell.text "jean-luc"]]⟩ =
        some ⟨["Name"], [[Cell.text "Jean-Luc"]]⟩ ∧
      specTitle "jean-luc" = "Jean-luc" ∧
      ("Jean-Luc" : String) ≠ specTitle "jean-luc" :=
  ⟨by decide, by decide, by decide⟩

/-- C3 amended: with the title-case step enabled, every text-typed column
whose name contains "name" case-insensitively has each non-missing cell
replaced by its Python `str.title()` form (each maximal run of letters is
a word: its first letter is uppercased and the rest lowercased, with
non-letter characters delimiting words), and every other column is left
untouched; "jOHN doe" in "Full Name" becomes "John Doe" while "nEW york"
in "City" is unchanged. -/
theorem C3_title_case :
    (∀ t : Table, runCleaningJob titleOnlyCfg t =
      some { t with rows := t.rows.map (fun r => r.mapIdx (fun i c =>
        if colIsObject t i && nameLike (t.header.getD i "") then strMap pyTitle c else c)) }) ∧
    pyTitle "jOHN doe" = "John Doe" ∧
    runCleaningJob titleOnlyCfg
        ⟨["Full Name", "City"], [[Cell.text "jOHN doe", Cell.text "nEW york"]]⟩ =
      some ⟨["Full Name", "City"], [[Cell.text "John Doe", Cell.text "nEW york"]]⟩ :=
  ⟨fun _ => rfl, by decide, by decide⟩

/-- C4 counterexample: the claim reads the pattern with a hard end
anchor, but `re.match`'s `$` also matches just before a trailing newline,
so the pipeline keeps a row whose cell "a@b.com\n" is outside the
pattern's language. -/
theorem C4_counterexample :
    runCleaningJob (emailOnlyCfg "Email") ⟨["Email"], [[Cell.text "a@b.com\n"]]⟩ =
        some ⟨["Email"], [[Cell.text "a@b.com\n"]]⟩ ∧
      emailCore "a@b.com\n".data = false :=
  ⟨by decide, by decide⟩

/-- C4 amended: with the email step enabled on an existing column, the
pipeline keeps exactly the rows whose cell's string form lies in the
pattern's language, or does so after removing a single trailing newline
(Python `$` semantics); a missing cell never validates, so its row is
dropped, and kept rows are unchanged. -/
theorem C4_email_filter (t : Table) (col : String) (i : Nat)
    (hcol : col ≠ "None")
    (hidx : t.header.findIdx? (fun h => h == col) = some i) :
    runCleaningJob (emailOnlyCfg col) t =
        some { t with rows := t.rows.filter (fun r =>
          emailCore (pyStr (r.getD i Cell.missing)).data ||
            ((pyStr (r.getD i Cell.missing)).data.getLast? == some '\n' &&
              emailCore (pyStr (r.getD i Cell.missing)).data.dropLast)) } ∧
      is_valid_email Cell.missing = false := by
  constructor
  · have hstep : runCleaningJob (emailOnlyCfg col) t = emailFilterStep col t := by
      simp [runCleaningJob, emailOnlyCfg, hcol]
    rw [hstep, emailFilterStep, hidx]
    rfl
  · decide

/-- C4 witness: on the spec's four example rows the filter keeps exactly
the "a@b.com" and "x@y.co" rows. -/
theorem C4_email_filter_witness :
    (runCleaningJob (emailOnlyCfg "Email") emailExampleTable =
        some { emailExampleTable with rows := emailExampleTable.rows.filter (fun r =>
          emailCore (pyStr (r.getD 0 Cell.missing)).data ||
            ((pyStr (r.getD 0 Cell.missing)).data.getLast? == some '\n' &&
              emailCore (pyStr (r.getD 0 Cell.missing)).data.dropLast)) } ∧
      is_valid_email Cell.missing = false) ∧
    runCleaningJob (emailOnlyCfg "Email") emailExampleTable =
      some ⟨["Email"], [[Cell.text "a@b.com"], [Cell.text "x@y.co"]]⟩ :=
  ⟨C4_email_filter emailExampleTable "Email" 0 (by decide) (by decide), by decide⟩

/-- C2 counterexample: the Export Tools block binds the session table
without copying and assigns its `columns` attribute in place, so after a
Salesforce Compatible export the caller-visible stored table's column
names have changed. -/
theorem C2_counterexample :
    (exportToolsBlock "Salesforce Compatible" mutDemoState).1.cleaned_df.header ≠
      mutDemoState.cleaned_df.header := by decide

/-- C2 amended: the Deep Clean job works on a copy of the uploaded table
(modelled by keeping the input table a value the job never rebinds), and
exporting for any non-Salesforce target leaves the stored table
unchanged; but a Salesforce Compatible export writes back through the
alias, leaving the stored table with snake-cased column names (rows
untouched), and the exported table is that mutated table. -/
theorem C2_export_mutation :
    (∀ (p : String) (s : AppState), p ≠ "Salesforce Compatible" →
        exportToolsBlock p s = (s, s.cleaned_df)) ∧
    (∀ s : AppState,
        (exportToolsBlock "Salesforce Compatible" s).1.cleaned_df.header =
            s.cleaned_df.header.map sfName ∧
          (exportToolsBlock "Salesforce Compatible" s).1.cleaned_df.rows =
            s.cleaned_df.rows ∧
          (exportToolsBlock "Salesforce Compatible" s).2 =
            (exportToolsBlock "Salesforce Compatible" s).1.cleaned_df) := by
  constructor
  · intro p s h
    simp only [exportToolsBlock, exportFormat, if_neg h]
  · intro s
    exact ⟨rfl, rfl, rfl⟩

/-- C2 witness: a Universal CSV export leaves the concrete stored state
unchanged and exports its table as is. -/
theorem C2_export_mutation_witness :
    exportToolsBlock "Universal CSV" mutDemoState = (mutDemoState, mutDemoState.cleaned_df) :=
  C2_export_mutation.1 "Universal CSV" mutDemoState (by decide)

/-- C9: the Salesforce Compatible export renames every column to its
lower-cased, space-to-underscore form and leaves all cell data unchanged;
any other target passes the table through; ["First Name", "Email
Address"] become ["first_name", "email_address"]. -/
theorem C9_export_rename (t : Table) :
    (exportFormat "Salesforce Compatible" t).header = t.header.map sfName ∧
      (exportFormat "Salesforce Compatible" t).rows = t.rows ∧
      (∀ p : String, p ≠ "Salesforce Compatible" → exportFormat p t = t) ∧
      sfName "First Name" = "first_name" ∧ sfName "Email Address" = "email_address" :=
  ⟨rfl, rfl, fun _ h => by simp [exportFormat, if_neg h], by decide, by decide⟩

/-- C9 witness: the Universal CSV and HubSpot Import targets pass the
concrete example table through unchanged, and the Salesforce rename on it
evaluates to the expected snake-cased headers. -/
theorem C9_export_rename_witness :
    exportFormat "Universal CSV" sfExampleTable = sfExampleTable ∧
      exportFormat "HubSpot Import" sfExampleTable = sfExampleTable ∧
      (exportFormat "Salesforce Compatible" sfExampleTable).header =
        ["first_name", "email_address"] :=
  ⟨(C9_export_rename sfExampleTable).2.2.1 "Universal CSV" (by decide),
   (C9_export_rename sfExampleTable).2.2.1 "HubSpot Import" (by decide),
   by decide⟩

/-- C10: the validator accepts "a@b.com\n", a string that continues past
the pattern's apparent end anchor, and the email step keeps its row while
dropping a non-matching one; moreover every cell is stringified before
matching, so a numeric cell is matched against its rendering. -/
theorem C10_email_quirks :
    is_valid_email (Cell.text "a@b.com\n") = true ∧
      emailCore "a@b.com\n".data = false ∧
      runCleaningJob (emailOnlyCfg "Email")
          ⟨["Email"], [[Cell.text "a@b.com\n"], [Cell.text "plainly-bad"]]⟩ =
        some ⟨["Email"], [[Cell.text "a@b.com\n"]]⟩ ∧
      (∀ c : Cell, is_valid_email c = pyMatchEmail (pyStr c)) ∧
      is_valid_email (Cell.num 12) = pyMatchEmail "12" ∧
      pyMatchEmail "12" = false :=
  ⟨by decide, by decide, by decide, fun _ => rfl, by decide, by decide⟩

end DataScrub
